import Mathlib

/-!
# Verification of the Orion conversation-turn pipeline

Shallow embedding of the chat service in `src/app.py` (the `chat` route and
its helpers `detect_language`, `generate_system_prompt`, `generate_chat_title`,
plus the module-level stores `chat_sessions` / `chat_messages` / `token_usage`).

Modelling conventions:
* Python strings are Lean `String`s; `str.strip()` / `str.lower()` become
  `pyStrip` / `pyLower` (ASCII case folding; the marker words checked by the
  classifier are all ASCII).
* `datetime.now().isoformat()` is modelled as a strictly increasing tick
  counter (`World.clock`), and `generate_id()` (uuid4) as a fresh-id counter
  (`World.nextId`): each call yields the current value and advances it.
* The global dicts become association lists keyed by `Nat` identifiers.
* The outbound HTTP call of one attempt is an oracle `Nat → PAttempt` giving,
  per attempt index, either a transport timeout or a response with an HTTP
  status and a parsed JSON body.  `time.sleep(1)` calls are counted.
* Python `float` parameters (`temperature`, cost arithmetic) are modelled with
  exact rationals; no verified claim depends on their values.
* A `KeyError`/`IndexError` caught by the route's blanket `try/except`
  (returning HTTP 500) is modelled by the `serverError` response; those
  branches are unreachable in the runs considered here but keep every
  definition total and faithful.
-/

/-- `str.strip()` on both ends, as used in `app.py` lines 503, 111, 612. -/
def pyStrip (s : String) : String :=
  ⟨((s.data.dropWhile Char.isWhitespace).reverse.dropWhile Char.isWhitespace).reverse⟩

/-- `str.lower()` (ASCII case folding), `app.py` line 79. -/
def pyLower (s : String) : String :=
  ⟨s.data.map Char.toLower⟩

/-- Does `hay` start with `needle`?  Helper for the Python `in` substring test. -/
def leadsWith : List Char → List Char → Bool
  | [], _ => true
  | _ :: _, [] => false
  | n :: ns, h :: hs => n == h && leadsWith ns hs

/-- Python's `needle in hay` substring test. -/
def containsSeq (needle : List Char) : List Char → Bool
  | [] => leadsWith needle []
  | c :: hs => leadsWith needle (c :: hs) || containsSeq needle hs

/-- `"ऀ" <= c <= "ॿ"`, `app.py` line 75. -/
def isDevanagari (c : Char) : Bool :=
  decide (0x900 ≤ c.toNat) && decide (c.toNat ≤ 0x97F)

/-- The fixed Hinglish marker list, `app.py` line 78. -/
def hinglish_words : List String :=
  ["kya", "hai", "kaise", "tum", "haan", "me", "nhi", "hnn", "kyu", "kahan",
   "kaun", "mera", "tera", "batao", "kar", "raha"]

/-- `detect_language`, `app.py` lines 74-83. -/
def detect_language (text : String) : String :=
  if text.data.any isDevanagari then "hindi"
  else if hinglish_words.any (fun wd => containsSeq wd.data (pyLower text).data) then "hinglish"
  else "english"

/-- The base rule block of `generate_system_prompt`, `app.py` lines 92-100. -/
def base_rules : String :=
  "You are Orion, a high-quality AI assistant.\n\nRules:\n- Be helpful, clear, and concise\n- No over-explaining\n- Short answers by default (2-4 sentences)\n- Detailed only when asked\n- Never be rude or inappropriate\n- Use markdown formatting for code, lists, and emphasis when helpful"

/-- `generate_system_prompt`, `app.py` lines 88-108.  A non-empty custom
prompt (Python truthiness of the string) replaces the default verbatim. -/
def generate_system_prompt (language : String) (custom_prompt : String) : String :=
  if custom_prompt ≠ "" then custom_prompt
  else if language = "hinglish" then
    base_rules ++ "\nReply in natural Hinglish (Hindi in English script). Casual tone."
  else if language = "hindi" then
    base_rules ++ "\nReply in proper Hindi (Devanagari script)."
  else
    base_rules ++ "\nReply in natural English."

/-- `generate_chat_title`, `app.py` lines 110-114: first 40 characters of the
stripped message, with an ellipsis when the (unstripped) argument is longer
than 40 characters. -/
def generate_chat_title (first_message : String) : String :=
  let title := (pyStrip first_message).take 40
  if 40 < first_message.length then title ++ "..." else title

/-- One entry of `AVAILABLE_MODELS`, `app.py` lines 35-41. -/
structure ModelInfo where
  name : String
  cost_per_1k : ℚ
  deriving DecidableEq, Repr

/-- Association-list lookup (first match), modelling Python dict lookup. -/
def lookupA {κ α : Type} [DecidableEq κ] : List (κ × α) → κ → Option α
  | [], _ => none
  | (k', v) :: rest, k => if k' = k then some v else lookupA rest k

/-- Association-list insert/overwrite, modelling Python dict assignment. -/
def setA {κ α : Type} [DecidableEq κ] : List (κ × α) → κ → α → List (κ × α)
  | [], k, v => [(k, v)]
  | (k', v') :: rest, k, v =>
    if k' = k then (k, v) :: rest else (k', v') :: setA rest k v

/-- `AVAILABLE_MODELS`, `app.py` lines 35-41 (costs as exact rationals). -/
def AVAILABLE_MODELS : List (String × ModelInfo) :=
  [("mistralai/mistral-7b-instruct", ⟨"Mistral 7B", 2 / 10000⟩),
   ("openai/gpt-3.5-turbo", ⟨"GPT-3.5 Turbo", 15 / 10000⟩),
   ("anthropic/claude-3-haiku", ⟨"Claude 3 Haiku", 25 / 10000⟩),
   ("google/gemini-pro", ⟨"Gemini Pro", 5 / 10000⟩),
   ("meta-llama/llama-2-70b-chat", ⟨"Llama 2 70B", 9 / 10000⟩)]

/-- `DEFAULT_MODEL`, `app.py` line 42. -/
def DEFAULT_MODEL : String := "mistralai/mistral-7b-instruct"

/-- Parsed provider JSON body: `choices[0].message.content` if present, and
`usage.total_tokens` (0 when absent), `app.py` lines 610-614. -/
structure ProviderResponse where
  content : Option String
  total_tokens : Nat
  deriving DecidableEq, Repr

/-- Outcome of one `requests.post` attempt: a transport timeout or a response
with an HTTP status code and body. -/
inductive PAttempt where
  | ptimeout
  | presp (status : Nat) (resp : ProviderResponse)
  deriving DecidableEq, Repr

/-- Result of the retry loop of `app.py` lines 582-608, recording how many
attempts were issued and how many `time.sleep(1)` calls ran. -/
inductive LoopResult where
  | success (resp : ProviderResponse) (attempts sleeps : Nat)
  | unavailable (attempts sleeps : Nat)
  | timedOut (attempts sleeps : Nat)
  deriving DecidableEq, Repr

def LoopResult.attempts : LoopResult → Nat
  | .success _ a _ => a
  | .unavailable a _ => a
  | .timedOut a _ => a

def LoopResult.sleeps : LoopResult → Nat
  | .success _ _ s => s
  | .unavailable _ s => s
  | .timedOut _ s => s

def LoopResult.failed : LoopResult → Bool
  | .success _ _ _ => false
  | .unavailable _ _ => true
  | .timedOut _ _ => true

/-- The body of `for attempt in range(3)` (`app.py` lines 582-608), with
`remaining` attempts left (the source always runs with `attempt + remaining
= 3`, so `remaining = 1` is exactly the source's `attempt == 2` final-attempt
test; the `remaining = 0` case is unreachable from `retryLoop`).
On a non-success status the loop sleeps one second before the next attempt;
on a timeout it retries immediately (the `time.sleep(1)` at line 601 is not
executed on the `except Timeout` path). -/
def retryRem (oracle : Nat → PAttempt) : Nat → Nat → Nat → LoopResult
  | attempt, 1, sleeps =>
    (match oracle attempt with
     | .ptimeout => .timedOut (attempt + 1) sleeps
     | .presp st r =>
       if st = 200 then .success r (attempt + 1) sleeps
       else .unavailable (attempt + 1) sleeps)
  | attempt, n + 2, sleeps =>
    (match oracle attempt with
     | .ptimeout => retryRem oracle (attempt + 1) (n + 1) sleeps
     | .presp st r =>
       if st = 200 then .success r (attempt + 1) sleeps
       else retryRem oracle (attempt + 1) (n + 1) (sleeps + 1))
  | attempt, 0, sleeps => .timedOut attempt sleeps

/-- The full retry loop, `app.py` lines 582-608: 3 total attempts. -/
def retryLoop (oracle : Nat → PAttempt) : LoopResult :=
  retryRem oracle 0 3 0

/-- A persisted chat message (entries of `chat_messages[sid]`, `app.py`
lines 550-555 and 625-630). -/
structure Message where
  mid : Nat
  role : String
  content : String
  created_at : Nat
  deriving DecidableEq, Repr

/-- A session record (entries of `chat_sessions`, `app.py` lines 521-532). -/
structure Session where
  sid : Nat
  user_id : Nat
  title : String
  model : String
  system_prompt : String
  is_archived : Bool
  is_pinned : Bool
  created_at : Nat
  updated_at : Nat
  message_count : Nat
  deriving DecidableEq, Repr

/-- One `token_usage` entry, `app.py` lines 618-623. -/
structure TokenUsage where
  user_id : Nat
  session_id : Nat
  tokens : Nat
  cost : ℚ
  deriving DecidableEq, Repr

/-- The module-level mutable state of `app.py` (lines 30-32) together with
the fresh-id source (`generate_id`) and the wall clock (`datetime.now`),
both modelled as counters that advance on every call. -/
structure World where
  sessions : List (Nat × Session)
  messages : List (Nat × List Message)
  usage : List TokenUsage
  nextId : Nat
  clock : Nat
  deriving DecidableEq, Repr

/-- The JSON body of one turn request, `app.py` lines 503-507 and 516, 526
(`data.get(...)` defaults applied by the caller of this model where noted).
The floating-point `temperature` / `max_tokens` knobs are not modelled; no
claim depends on them. -/
structure ChatReq where
  message : String
  session_id : Option Nat
  regenerate : Bool
  model : Option String
  system_prompt : String
  deriving DecidableEq, Repr

/-- One `{role, content}` entry of the provider payload. -/
structure RoleContent where
  role : String
  content : String
  deriving DecidableEq, Repr

/-- The payload handed to `requests.post`, `app.py` lines 574-579 (the
unmodelled float knobs omitted). -/
structure Payload where
  model : String
  messages : List RoleContent
  deriving DecidableEq, Repr

/-- The HTTP response of the `chat` route, by failure kind.  `serverError`
is the blanket 500 of the outer `try/except` (`app.py` lines 643-645). -/
inductive ChatResp where
  | invalidRequest
  | emptyMessage
  | messageTooLong
  | sessionNotFound
  | nothingToRegenerate
  | serverError
  | unavailable
  | timedOut
  | ok (reply : String) (session_id : Nat) (title model : String) (tokens : Nat)
  deriving DecidableEq, Repr

/-- Observable outcome of one invocation of the `chat` route: its HTTP
response, the post-state of the module-level stores, and the payload sent to
the provider (`none` when the provider was never called). -/
structure ChatOut where
  resp : ChatResp
  world : World
  sent : Option Payload
  deriving DecidableEq, Repr

/-- Python `xs[-n:]`: the last `n` elements. -/
def lastN {α : Type} (n : Nat) (xs : List α) : List α :=
  xs.drop (xs.length - n)

/-- `app.py` lines 547-641: the tail of a chat turn, starting at the
`updated_at` bump on line 547 (which runs before the provider call), for an
already-resolved session `sid`.  `user_message` is the effective user text
(the stripped request text, or on regeneration the resubmitted last stored
user message).  Dict indexing that would raise `KeyError` (caught by the
route as a 500) is the `serverError` branch; all such branches are
unreachable for the worlds produced by `chatWithData`. -/
def runTurn (w : World) (uid sid : Nat) (regenerate : Bool) (user_message : String)
    (oracle : Nat → PAttempt) : ChatOut :=
  -- line 547: chat_sessions[session_id]["updated_at"] = datetime.now().isoformat()
  let t := w.clock
  let w1 : World := { w with clock := w.clock + 1 }
  match lookupA w1.sessions sid with
  | none => ⟨.serverError, w1, none⟩
  | some s =>
    let w2 : World := { w1 with sessions := setA w1.sessions sid { s with updated_at := t } }
    -- lines 549-555: persist the user message unless regenerating
    match (if regenerate then some w2 else
      match lookupA w2.messages sid with
      | none => none
      | some ms =>
        some { w2 with
          messages := setA w2.messages sid
            (ms ++ [⟨w2.nextId, "user", user_message, w2.clock⟩]),
          nextId := w2.nextId + 1, clock := w2.clock + 1 }) with
    | none => ⟨.serverError, w2, none⟩
    | some w3 =>
      -- line 558: history = chat_messages[session_id][-20:]
      match lookupA w3.messages sid with
      | none => ⟨.serverError, w3, none⟩
      | some msgs =>
        let history := lastN 20 msgs
        -- lines 560-565: classify, build prompt, assemble conversation
        let language := detect_language user_message
        match lookupA w3.sessions sid with
        | none => ⟨.serverError, w3, none⟩
        | some scur =>
          let system_prompt := generate_system_prompt language scur.system_prompt
          let conversation : List RoleContent :=
            ⟨"system", system_prompt⟩ :: history.map (fun m => ⟨m.role, m.content⟩)
          -- lines 574-579: payload uses the session's stored model
          let payload : Payload := ⟨scur.model, conversation⟩
          -- lines 582-608: bounded retry
          match retryLoop oracle with
          | .unavailable _ _ => ⟨.unavailable, w3, some payload⟩
          | .timedOut _ _ => ⟨.timedOut, w3, some payload⟩
          | .success resp _ _ =>
            -- lines 610-616: extract reply, tokens, cost
            let reply_text := pyStrip (resp.content.getD "No response.")
            let tokens_used := resp.total_tokens
            let rate := match lookupA AVAILABLE_MODELS scur.model with
              | some info => info.cost_per_1k
              | none => (2 : ℚ) / 10000
            let cost := (tokens_used : ℚ) / 1000 * rate
            -- lines 618-623: record usage
            let w4 : World := { w3 with usage := w3.usage ++ [⟨uid, sid, tokens_used, cost⟩] }
            -- lines 625-630: persist the assistant message
            match lookupA w4.messages sid with
            | none => ⟨.serverError, w4, some payload⟩
            | some ms2 =>
              let ms3 := ms2 ++ [⟨w4.nextId, "assistant", reply_text, w4.clock⟩]
              let w5 : World := { w4 with
                messages := setA w4.messages sid ms3,
                nextId := w4.nextId + 1, clock := w4.clock + 1 }
              -- line 632: message_count, lines 634-641: response body
              match lookupA w5.sessions sid with
              | none => ⟨.serverError, w5, some payload⟩
              | some sfin =>
                let w6 : World := { w5 with
                  sessions := setA w5.sessions sid { sfin with message_count := ms3.length } }
                ⟨.ok reply_text sid sfin.title sfin.model tokens_used, w6, some payload⟩

/-- `app.py` lines 539-545 plus the continuation: the regenerate check.  On
regeneration the last stored message must be an assistant message (and the
list must have at least two entries); it is popped and the now-last message's
content is resubmitted as the effective user text. -/
def afterResolve (w : World) (uid sid : Nat) (regenerate : Bool) (user_message : String)
    (oracle : Nat → PAttempt) : ChatOut :=
  if regenerate then
    let msgs := (lookupA w.messages sid).getD []
    if 2 ≤ msgs.length ∧ msgs.getLast?.map (fun m => m.role) = some "assistant" then
      let msgs' := msgs.dropLast
      let w' : World := { w with messages := setA w.messages sid msgs' }
      match msgs'.getLast? with
      | some m => runTurn w' uid sid true m.content oracle
      | none => ⟨.serverError, w', none⟩
    else ⟨.nothingToRegenerate, w, none⟩
  else runTurn w uid sid false user_message oracle

/-- `app.py` lines 516-518: the requested model of a fresh session
(default when absent), silently replaced by `DEFAULT_MODEL` when it is not a
key of `AVAILABLE_MODELS`. -/
def resolveModel (m : Option String) : String :=
  let model0 := m.getD DEFAULT_MODEL
  if (lookupA AVAILABLE_MODELS model0).isSome then model0 else DEFAULT_MODEL

/-- `app.py` lines 520-532: the session record created for a session-less
turn request (two `datetime.now()` calls: `created_at` then `updated_at`). -/
def freshSession (w : World) (uid : Nat) (d : ChatReq) : Session :=
  { sid := w.nextId, user_id := uid,
    title := generate_chat_title (pyStrip d.message),
    model := resolveModel d.model,
    system_prompt := d.system_prompt,
    is_archived := false, is_pinned := false,
    created_at := w.clock, updated_at := w.clock + 1,
    message_count := 0 }

/-- `app.py` lines 503-545: validation and session resolution of the `chat`
route, given a parsed JSON body. -/
def chatWithData (w : World) (uid : Nat) (d : ChatReq) (oracle : Nat → PAttempt) : ChatOut :=
  let user_message := pyStrip d.message
  -- lines 509-510: empty message (unless regenerating)
  if user_message = "" ∧ d.regenerate = false then ⟨.emptyMessage, w, none⟩
  -- lines 512-513: length cap
  else if 1200 < user_message.length then ⟨.messageTooLong, w, none⟩
  else
    match d.session_id with
    | none =>
      -- lines 515-533: create a new session; an unknown requested model is
      -- silently replaced by the default
      let sid := w.nextId
      let w1 : World := { w with
        sessions := setA w.sessions sid (freshSession w uid d),
        messages := setA w.messages sid [],
        nextId := w.nextId + 1,
        clock := w.clock + 2 }
      afterResolve w1 uid sid d.regenerate user_message oracle
    | some sid =>
      -- lines 534-537: look up the referenced session; 404 when absent or
      -- owned by another user
      match lookupA w.sessions sid with
      | none => ⟨.sessionNotFound, w, none⟩
      | some s =>
        if s.user_id = uid then afterResolve w uid sid d.regenerate user_message oracle
        else ⟨.sessionNotFound, w, none⟩

/-- The `chat` route, `app.py` lines 492-645.  `data = none` models a request
whose JSON body is missing (line 500). -/
def chat (w : World) (uid : Nat) (data : Option ChatReq) (oracle : Nat → PAttempt) : ChatOut :=
  match data with
  | none => ⟨.invalidRequest, w, none⟩
  | some d => chatWithData w uid d oracle

/-- The message list stored for session `sid` after a run. -/
def postMsgs (out : ChatOut) (sid : Nat) : List Message :=
  (lookupA out.world.messages sid).getD []

/-! Concrete data for witnesses and counterexamples. -/

/-- A stored user message. -/
def m0u : Message := ⟨1, "user", "hi", 2⟩

/-- A stored assistant message. -/
def m0a : Message := ⟨2, "assistant", "hello", 3⟩

/-- A stored session owned by user 7, last updated at tick 5. -/
def s0 : Session :=
  { sid := 0, user_id := 7, title := "greetings", model := DEFAULT_MODEL,
    system_prompt := "", is_archived := false, is_pinned := false,
    created_at := 1, updated_at := 5, message_count := 2 }

/-- A store holding the single session `s0` with history `[m0u, m0a]`. -/
def w0 : World :=
  { sessions := [(0, s0)], messages := [(0, [m0u, m0a])], usage := [],
    nextId := 10, clock := 100 }

/-- A plain non-regenerating turn request against session 0. -/
def reqMsg : ChatReq :=
  { message := "hey there", session_id := some 0, regenerate := false,
    model := none, system_prompt := "" }

/-- A regenerate request against session 0. -/
def reqRegen : ChatReq :=
  { message := "", session_id := some 0, regenerate := true,
    model := none, system_prompt := "" }

/-- A regenerate request carrying no session reference. -/
def reqRegenFresh : ChatReq :=
  { message := "", session_id := none, regenerate := true,
    model := none, system_prompt := "" }

/-- A fresh-session request asking for a model that is not in the table. -/
def reqBogusModel : ChatReq :=
  { message := "yo", session_id := none, regenerate := false,
    model := some "bogus/model", system_prompt := "" }

/-- A non-regenerating request whose message strips to the empty string. -/
def reqBlank : ChatReq :=
  { message := " ", session_id := some 0, regenerate := false,
    model := none, system_prompt := "" }

/-- A request whose message is 1201 characters long. -/
def reqLong : ChatReq :=
  { message := String.mk (List.replicate 1201 'a'), session_id := some 0,
    regenerate := false, model := none, system_prompt := "" }

/-- A request whose message is exactly 1200 characters long. -/
def reqCap : ChatReq :=
  { message := String.mk (List.replicate 1200 'a'), session_id := some 0,
    regenerate := false, model := none, system_prompt := "" }

/-- A provider that succeeds immediately. -/
def okOracle : Nat → PAttempt := fun _ => .presp 200 ⟨some " Reply here ", 42⟩

/-- A provider that always answers HTTP 500. -/
def badOracle : Nat → PAttempt := fun _ => .presp 500 ⟨none, 0⟩

/-- A provider whose transport always times out. -/
def toOracle : Nat → PAttempt := fun _ => .ptimeout

/-- A provider that times out twice, then succeeds on the third attempt. -/
def thirdOk : Nat → PAttempt := fun n =>
  if n < 2 then .ptimeout else .presp 200 ⟨some "ok", 1⟩

/-- An attempt outcome the retry loop treats as a failure: a transport
timeout or a response with a non-success status. -/
def attemptFails (a : PAttempt) : Prop :=
  a = .ptimeout ∨ ∃ st r, a = .presp st r ∧ st ≠ 200

/-- How a turn request resolves to a session: either no reference was given
and a fresh session (with the next free identifier and an empty history) is
created, or the referenced session exists, is owned by the caller, and has
the stored history `msgs0`. -/
def ResolvesTo (w : World) (uid : Nat) (d : ChatReq) (sid : Nat) (msgs0 : List Message) : Prop :=
  (d.session_id = none ∧ sid = w.nextId ∧ msgs0 = [])
  ∨ (∃ s, d.session_id = some sid ∧ lookupA w.sessions sid = some s ∧
      s.user_id = uid ∧ lookupA w.messages sid = some msgs0)

/-! ## Helper lemmas -/

theorem lookupA_setA_self {κ α : Type} [DecidableEq κ] (l : List (κ × α)) (k : κ) (v : α) :
    lookupA (setA l k v) k = some v := by
  induction l with
  | nil => simp [setA, lookupA]
  | cons p rest ih =>
    obtain ⟨k', v'⟩ := p
    by_cases h : k' = k
    · simp [setA, lookupA, h]
    · simp [setA, lookupA, h, ih]

theorem setA_setA {κ α : Type} [DecidableEq κ] (l : List (κ × α)) (k : κ) (v v' : α) :
    setA (setA l k v) k v' = setA l k v' := by
  induction l with
  | nil => simp [setA]
  | cons p rest ih =>
    obtain ⟨k2, v2⟩ := p
    by_cases h : k2 = k
    · simp [setA, h]
    · simp [setA, h, ih]

theorem leadsWith_iff (n : List Char) : ∀ h : List Char,
    leadsWith n h = true ↔ ∃ r, h = n ++ r := by
  induction n with
  | nil => intro h; simp [leadsWith]
  | cons a ns ih =>
    intro h
    cases h with
    | nil => simp [leadsWith]
    | cons b hs =>
      simp only [leadsWith, Bool.and_eq_true, beq_iff_eq, ih, List.cons_append,
        List.cons.injEq]
      constructor
      · rintro ⟨rfl, r, rfl⟩; exact ⟨r, rfl, rfl⟩
      · rintro ⟨r, rfl, rfl⟩; exact ⟨rfl, r, rfl⟩

theorem containsSeq_iff (n : List Char) : ∀ h : List Char,
    containsSeq n h = true ↔ ∃ l r, h = l ++ n ++ r := by
  intro h
  induction h with
  | nil =>
    simp only [containsSeq, leadsWith_iff]
    constructor
    · rintro ⟨r, hr⟩; exact ⟨[], r, by simpa using hr⟩
    · rintro ⟨l, r, hr⟩
      rw [eq_comm, List.append_eq_nil] at hr
      obtain ⟨hln, hr0⟩ := hr
      rw [List.append_eq_nil] at hln
      exact ⟨r, by simp [hln.2, hr0]⟩
  | cons c hs ih =>
    simp only [containsSeq, Bool.or_eq_true, ih, leadsWith_iff]
    constructor
    · rintro (⟨r, hr⟩ | ⟨l, r, hr⟩)
      · exact ⟨[], r, by simpa using hr⟩
      · exact ⟨c :: l, r, by simp [hr]⟩
    · rintro ⟨l, r, hr⟩
      cases l with
      | nil => exact Or.inl ⟨r, by simpa using hr⟩
      | cons a l2 =>
        simp only [List.cons_append, List.cons.injEq] at hr
        exact Or.inr ⟨l2, r, hr.2⟩

theorem marker_exists_iff (t : String) :
    hinglish_words.any (fun wd => containsSeq wd.data (pyLower t).data) = true
    ↔ ∃ wd ∈ hinglish_words, ∃ l r, (pyLower t).data = l ++ wd.data ++ r := by
  simp only [List.any_eq_true, containsSeq_iff]

theorem no_marker_of_any_false (t : String)
    (h : hinglish_words.any (fun wd => containsSeq wd.data (pyLower t).data) = false) :
    ¬ ∃ wd ∈ hinglish_words, ∃ l r, (pyLower t).data = l ++ wd.data ++ r := by
  rw [← marker_exists_iff]
  simp [h]

theorem lastN_of_le {α : Type} {n : Nat} {xs : List α} (h : xs.length ≤ n) :
    lastN n xs = xs := by
  simp [lastN, Nat.sub_eq_zero_of_le h]

theorem lastN_length_le {α : Type} (n : Nat) (xs : List α) :
    (lastN n xs).length ≤ n := by
  simp only [lastN, List.length_drop]
  omega

theorem lastN_is_suffix {α : Type} (n : Nat) (xs : List α) :
    ∃ dropped, xs = dropped ++ lastN n xs :=
  ⟨xs.take (xs.length - n), (List.take_append_drop _ xs).symm⟩

theorem lastN_concat {α : Type} (n : Nat) (hn : 1 ≤ n) (xs : List α) (x : α) :
    ∃ ys, lastN n (xs ++ [x]) = ys ++ [x] := by
  refine ⟨xs.drop ((xs ++ [x]).length - n), ?_⟩
  simp only [lastN, List.drop_append_eq_append_drop]
  have hle : (xs ++ [x]).length - n ≤ xs.length := by
    simp only [List.length_append, List.length_singleton]
    omega
  rw [Nat.sub_eq_zero_of_le hle, List.drop_zero]

theorem retryRem_attempts_le (oracle : Nat → PAttempt) :
    ∀ fuel attempt sleeps, (retryRem oracle attempt fuel sleeps).attempts ≤ attempt + fuel := by
  intro fuel
  induction fuel using Nat.strong_induction_on with
  | _ fuel ih =>
    intro attempt sleeps
    rcases fuel with _ | (_ | n)
    · simp [retryRem, LoopResult.attempts]
    · cases horacle : oracle attempt with
      | ptimeout => simp [retryRem, horacle, LoopResult.attempts]
      | presp st r =>
        by_cases h : st = 200 <;>
          simp [retryRem, horacle, h, LoopResult.attempts]
    · cases horacle : oracle attempt with
      | ptimeout =>
        have := ih (n + 1) (by omega) (attempt + 1) sleeps
        simp only [retryRem, horacle]
        omega
      | presp st r =>
        by_cases h : st = 200
        · simp [retryRem, horacle, h, LoopResult.attempts]
        · have := ih (n + 1) (by omega) (attempt + 1) (sleeps + 1)
          simp only [retryRem, horacle]
          rw [if_neg h]
          omega

theorem runTurn_resp_ne (w : World) (uid sid : Nat) (reg : Bool) (um : String)
    (oracle : Nat → PAttempt) :
    (runTurn w uid sid reg um oracle).resp ≠ ChatResp.emptyMessage
      ∧ (runTurn w uid sid reg um oracle).resp ≠ ChatResp.messageTooLong := by
  rcases hq : retryLoop oracle with ⟨r, a, sl⟩ | ⟨a, sl⟩ | ⟨a, sl⟩ <;>
    rcases h1 : lookupA w.sessions sid with _ | s <;>
    rcases h2 : lookupA w.messages sid with _ | ms <;>
    rcases reg with _ | _ <;>
    simp [runTurn, lookupA_setA_self, hq, h1, h2]

theorem afterResolve_resp_ne (w : World) (uid sid : Nat) (reg : Bool) (um : String)
    (oracle : Nat → PAttempt) :
    (afterResolve w uid sid reg um oracle).resp ≠ ChatResp.emptyMessage
      ∧ (afterResolve w uid sid reg um oracle).resp ≠ ChatResp.messageTooLong := by
  rcases reg with _ | _
  · simpa [afterResolve] using runTurn_resp_ne w uid sid false um oracle
  · by_cases hg : 2 ≤ ((lookupA w.messages sid).getD []).length
        ∧ ((lookupA w.messages sid).getD []).getLast?.map (fun m => m.role) = some "assistant"
    · rcases h3 : ((lookupA w.messages sid).getD []).dropLast.getLast? with _ | m
      · simp only [afterResolve]
        rw [if_pos hg]
        simp [h3]
      · simp only [afterResolve]
        rw [if_pos hg]
        simp only [h3]
        exact runTurn_resp_ne { w with
            messages := setA w.messages sid ((lookupA w.messages sid).getD []).dropLast }
            uid sid true m.content oracle
    · simp only [afterResolve]
      rw [if_neg hg]
      simp

theorem conv_length_le (msgs1 : List Message) (sys : String) :
    (RoleContent.mk "system" sys ::
        (lastN 20 msgs1).map (fun m => RoleContent.mk m.role m.content)).length ≤ 22 := by
  have := lastN_length_le 20 msgs1
  simp only [List.length_cons, List.length_map]
  omega

theorem conv_getLast (msgs0 : List Message) (um : Message) (sys : String) :
    (RoleContent.mk "system" sys ::
        (lastN 20 (msgs0 ++ [um])).map (fun m => RoleContent.mk m.role m.content)).getLast?
      = some (RoleContent.mk um.role um.content) := by
  obtain ⟨ys, hys⟩ := lastN_concat 20 (by omega) msgs0 um
  rw [hys, List.map_append]
  simp only [List.map_cons, List.map_nil]
  rw [← List.cons_append, List.getLast?_concat]

theorem chat_existing (w : World) (uid : Nat) (d : ChatReq) (oracle : Nat → PAttempt)
    (sid : Nat) (s : Session)
    (hval : ¬ (pyStrip d.message = "" ∧ d.regenerate = false))
    (hlen : ¬ 1200 < (pyStrip d.message).length)
    (hsid : d.session_id = some sid)
    (hs : lookupA w.sessions sid = some s)
    (hu : s.user_id = uid) :
    chat w uid (some d) oracle
      = afterResolve w uid sid d.regenerate (pyStrip d.message) oracle := by
  simp only [chat, chatWithData]
  rw [if_neg hval, if_neg hlen]
  simp only [hsid, hs]
  rw [if_pos hu]

theorem chat_fresh (w : World) (uid : Nat) (d : ChatReq) (oracle : Nat → PAttempt)
    (hval : ¬ (pyStrip d.message = "" ∧ d.regenerate = false))
    (hlen : ¬ 1200 < (pyStrip d.message).length)
    (hsid : d.session_id = none) :
    chat w uid (some d) oracle
      = afterResolve { w with
          sessions := setA w.sessions w.nextId (freshSession w uid d),
          messages := setA w.messages w.nextId [],
          nextId := w.nextId + 1, clock := w.clock + 2 }
          uid w.nextId d.regenerate (pyStrip d.message) oracle := by
  simp only [chat, chatWithData]
  rw [if_neg hval, if_neg hlen]
  simp only [hsid]

theorem afterResolve_nonregen (w : World) (uid sid : Nat) (um : String)
    (oracle : Nat → PAttempt) :
    afterResolve w uid sid false um oracle = runTurn w uid sid false um oracle := by
  simp [afterResolve]

theorem afterResolve_regen_pop (w : World) (uid sid : Nat) (um : String)
    (oracle : Nat → PAttempt) (h : List Message) (a lastm : Message)
    (hm : lookupA w.messages sid = some (h ++ [a]))
    (ha : a.role = "assistant") (hh : h.getLast? = some lastm) :
    afterResolve w uid sid true um oracle =
      runTurn { w with messages := setA w.messages sid h } uid sid true
        lastm.content oracle := by
  have hne : h ≠ [] := by
    rintro rfl
    simp at hh
  have hlen2 : 2 ≤ (h ++ [a]).length := by
    have h1 : 0 < h.length := List.length_pos.mpr hne
    simp only [List.length_append, List.length_singleton]
    omega
  have hcond : 2 ≤ (h ++ [a]).length
      ∧ Option.map (fun m => m.role) (h ++ [a]).getLast? = some "assistant" :=
    ⟨hlen2, by simp [List.getLast?_concat, ha]⟩
  simp only [afterResolve, hm, Option.getD_some, List.dropLast_concat, hh]
  rw [if_pos hcond]
  simp

theorem runTurn_nonregen_eq (w : World) (uid sid : Nat) (um : String)
    (oracle : Nat → PAttempt) (s : Session) (msgs0 : List Message)
    (hs : lookupA w.sessions sid = some s)
    (hm : lookupA w.messages sid = some msgs0) :
    runTurn w uid sid false um oracle =
      (let umsg : Message := ⟨w.nextId, "user", um, w.clock + 1⟩
       let msgs1 : List Message := msgs0 ++ [umsg]
       let payload : Payload := ⟨s.model,
         ⟨"system", generate_system_prompt (detect_language um) s.system_prompt⟩ ::
           (lastN 20 msgs1).map (fun m => ⟨m.role, m.content⟩)⟩
       let wfail : World :=
         { sessions := setA w.sessions sid { s with updated_at := w.clock },
           messages := setA w.messages sid msgs1,
           usage := w.usage, nextId := w.nextId + 1, clock := w.clock + 2 }
       match retryLoop oracle with
       | .unavailable _ _ => ⟨.unavailable, wfail, some payload⟩
       | .timedOut _ _ => ⟨.timedOut, wfail, some payload⟩
       | .success r _ _ =>
         let reply := pyStrip (r.content.getD "No response.")
         let amsg : Message := ⟨w.nextId + 1, "assistant", reply, w.clock + 2⟩
         let rate : ℚ := match lookupA AVAILABLE_MODELS s.model with
           | some info => info.cost_per_1k
           | none => 2 / 10000
         ⟨.ok reply sid s.title s.model r.total_tokens,
          { sessions := setA w.sessions sid
              { s with updated_at := w.clock, message_count := (msgs1 ++ [amsg]).length },
            messages := setA w.messages sid (msgs1 ++ [amsg]),
            usage := w.usage ++ [⟨uid, sid, r.total_tokens, (r.total_tokens : ℚ) / 1000 * rate⟩],
            nextId := w.nextId + 2, clock := w.clock + 3 },
          some payload⟩) := by
  rcases hq : retryLoop oracle with ⟨r, a, sl⟩ | ⟨a, sl⟩ | ⟨a, sl⟩ <;>
    simp [runTurn, hq, hs, hm, lookupA_setA_self, setA_setA]

theorem runTurn_regen_eq (w : World) (uid sid : Nat) (um : String)
    (oracle : Nat → PAttempt) (s : Session) (msgs1 : List Message)
    (hs : lookupA w.sessions sid = some s)
    (hm : lookupA w.messages sid = some msgs1) :
    runTurn w uid sid true um oracle =
      (let payload : Payload := ⟨s.model,
         ⟨"system", generate_system_prompt (detect_language um) s.system_prompt⟩ ::
           (lastN 20 msgs1).map (fun m => ⟨m.role, m.content⟩)⟩
       let wfail : World :=
         { sessions := setA w.sessions sid { s with updated_at := w.clock },
           messages := w.messages,
           usage := w.usage, nextId := w.nextId, clock := w.clock + 1 }
       match retryLoop oracle with
       | .unavailable _ _ => ⟨.unavailable, wfail, some payload⟩
       | .timedOut _ _ => ⟨.timedOut, wfail, some payload⟩
       | .success r _ _ =>
         let reply := pyStrip (r.content.getD "No response.")
         let amsg : Message := ⟨w.nextId, "assistant", reply, w.clock + 1⟩
         let rate : ℚ := match lookupA AVAILABLE_MODELS s.model with
           | some info => info.cost_per_1k
           | none => 2 / 10000
         ⟨.ok reply sid s.title s.model r.total_tokens,
          { sessions := setA w.sessions sid
              { s with updated_at := w.clock, message_count := (msgs1 ++ [amsg]).length },
            messages := setA w.messages sid (msgs1 ++ [amsg]),
            usage := w.usage ++ [⟨uid, sid, r.total_tokens, (r.total_tokens : ℚ) / 1000 * rate⟩],
            nextId := w.nextId + 1, clock := w.clock + 2 },
          some payload⟩) := by
  rcases hq : retryLoop oracle with ⟨r, a, sl⟩ | ⟨a, sl⟩ | ⟨a, sl⟩ <;>
    simp [runTurn, hq, hs, hm, lookupA_setA_self, setA_setA]

/-! ## Claim theorems -/

/-- **C7.** `classify` (source: `detect_language`) is a pure, deterministic
function: any text containing a Devanagari character is classified `hindi`
regardless of other content; any text containing a Hinglish marker word as a
substring of its lower-cased form, with no Devanagari character, is
classified `hinglish`; any text (including the empty string) containing
neither is classified `english`. -/
theorem C7_language_classifier :
    (∀ t : String, (∃ c ∈ t.data, isDevanagari c = true) → detect_language t = "hindi")
    ∧ (∀ t : String, (∀ c ∈ t.data, isDevanagari c = false) →
        (∃ wd ∈ hinglish_words, ∃ l r, (pyLower t).data = l ++ wd.data ++ r) →
        detect_language t = "hinglish")
    ∧ (∀ t : String, (∀ c ∈ t.data, isDevanagari c = false) →
        (¬ ∃ wd ∈ hinglish_words, ∃ l r, (pyLower t).data = l ++ wd.data ++ r) →
        detect_language t = "english") := by
  refine ⟨?_, ?_, ?_⟩
  · intro t h
    have hany : t.data.any isDevanagari = true := List.any_eq_true.mpr h
    simp [detect_language, hany]
  · intro t hdev hmark
    have h1 : t.data.any isDevanagari = false := by
      cases hany : t.data.any isDevanagari
      · rfl
      · obtain ⟨c, hc, hd⟩ := List.any_eq_true.mp hany
        simp [hdev c hc] at hd
    have h2 := (marker_exists_iff t).mpr hmark
    simp [detect_language, h1, h2]
  · intro t hdev hmark
    have h1 : t.data.any isDevanagari = false := by
      cases hany : t.data.any isDevanagari
      · rfl
      · obtain ⟨c, hc, hd⟩ := List.any_eq_true.mp hany
        simp [hdev c hc] at hd
    have h2 : hinglish_words.any (fun wd => containsSeq wd.data (pyLower t).data) = false := by
      cases hany : hinglish_words.any (fun wd => containsSeq wd.data (pyLower t).data)
      · rfl
      · exact absurd ((marker_exists_iff t).mp hany) hmark
    simp [detect_language, h1, h2]

/-- Witness for C7: one concrete text per class. -/
theorem C7_witness :
    detect_language "नमस्ते" = "hindi"
      ∧ detect_language "Kya haal" = "hinglish"
      ∧ detect_language "good morning" = "english" := by
  refine ⟨C7_language_classifier.1 "नमस्ते" (by decide),
    C7_language_classifier.2.1 "Kya haal" (by decide)
      ⟨"kya", by decide, [], " haal".data, by decide⟩,
    C7_language_classifier.2.2 "good morning" (by decide)
      (no_marker_of_any_false "good morning" (by decide))⟩

/-- **C3 counterexample.** The claim asserts a fixed 1-second backoff between
attempts for both non-success-status and timeout failures.  On a provider
that times out on attempts 0 and 1 and succeeds on attempt 2, the code makes
3 attempts but executes `time.sleep(1)` zero times: the `except Timeout`
branch (`app.py` lines 603-608) skips the `time.sleep(1)` at line 601, so a
timed-out attempt is retried with no backoff.  Under the claim the two
retries would be preceded by a sleep each (2 total). -/
theorem C3_counterexample :
    retryLoop thirdOk = LoopResult.success ⟨some "ok", 1⟩ 3 0
      ∧ (retryLoop thirdOk).sleeps = 0 ∧ (retryLoop thirdOk).sleeps ≠ 2 := by
  exact ⟨rfl, rfl, by decide⟩

/-- **C3 (amended).** The completion call makes at most 3 total attempts.
The fixed 1-second backoff runs only after a non-final attempt that returned
a non-success status; a timed-out attempt is retried immediately with no
backoff.  Exhausting attempts with repeated non-success statuses yields
`ProviderUnavailable` (503, with 2 sleeps), exhausting them with repeated
timeouts yields `ProviderTimeout` (504, with 0 sleeps), and a provider that
first succeeds on the 3rd attempt yields a success with no visible error. -/
theorem C3_amended_retry_policy (oracle : Nat → PAttempt) :
    (retryLoop oracle).attempts ≤ 3
    ∧ ((∀ i, i < 3 → ∃ st r, oracle i = .presp st r ∧ st ≠ 200) →
        retryLoop oracle = .unavailable 3 2)
    ∧ ((∀ i, i < 3 → oracle i = .ptimeout) → retryLoop oracle = .timedOut 3 0)
    ∧ (∀ r, attemptFails (oracle 0) → attemptFails (oracle 1) →
        oracle 2 = .presp 200 r → ∃ sl, retryLoop oracle = .success r 3 sl) := by
  refine ⟨?_, ?_, ?_, ?_⟩
  · simpa [retryLoop] using retryRem_attempts_le oracle 3 0 0
  · intro h
    obtain ⟨st0, r0, h0, hn0⟩ := h 0 (by omega)
    obtain ⟨st1, r1, h1, hn1⟩ := h 1 (by omega)
    obtain ⟨st2, r2, h2, hn2⟩ := h 2 (by omega)
    simp [retryLoop, retryRem, h0, h1, h2, hn0, hn1, hn2]
  · intro h
    simp [retryLoop, retryRem, h 0 (by omega), h 1 (by omega), h 2 (by omega)]
  · intro r hf0 hf1 h2
    rcases hf0 with h0 | ⟨st0, r0, h0, hn0⟩ <;> rcases hf1 with h1 | ⟨st1, r1, h1, hn1⟩
    · exact ⟨0, by simp [retryLoop, retryRem, h0, h1, h2]⟩
    · exact ⟨1, by simp [retryLoop, retryRem, h0, h1, h2, hn1]⟩
    · exact ⟨1, by simp [retryLoop, retryRem, h0, h1, h2, hn0]⟩
    · exact ⟨2, by simp [retryLoop, retryRem, h0, h1, h2, hn0, hn1]⟩

/-- Witness for C3 (amended): concrete all-bad-status, all-timeout and
third-attempt-success providers. -/
theorem C3_witness :
    retryLoop badOracle = LoopResult.unavailable 3 2
      ∧ retryLoop toOracle = LoopResult.timedOut 3 0
      ∧ ∃ sl, retryLoop thirdOk = LoopResult.success ⟨some "ok", 1⟩ 3 sl := by
  refine ⟨(C3_amended_retry_policy badOracle).2.1 ?_,
    (C3_amended_retry_policy toOracle).2.2.1 ?_,
    (C3_amended_retry_policy thirdOk).2.2.2 ⟨some "ok", 1⟩ ?_ ?_ ?_⟩
  · intro i _
    exact ⟨500, ⟨none, 0⟩, rfl, by decide⟩
  · intro i _
    rfl
  · exact Or.inl rfl
  · exact Or.inl rfl
  · rfl

/-- **C8.** A turn whose (stripped) message text is empty while not
regenerating, or longer than 1200 characters, fails with `InvalidInput`
(HTTP 400) and leaves the stores untouched (no session created, no message
persisted, no provider call); a message text of exactly 1200 characters
passes this validation. -/
theorem C8_input_validation (w : World) (uid : Nat) (d : ChatReq) (oracle : Nat → PAttempt) :
    ((pyStrip d.message = "" ∧ d.regenerate = false) →
        chat w uid (some d) oracle = ⟨ChatResp.emptyMessage, w, none⟩)
    ∧ (1200 < (pyStrip d.message).length →
        chat w uid (some d) oracle = ⟨ChatResp.messageTooLong, w, none⟩)
    ∧ ((pyStrip d.message).length = 1200 →
        (chat w uid (some d) oracle).resp ≠ ChatResp.emptyMessage
          ∧ (chat w uid (some d) oracle).resp ≠ ChatResp.messageTooLong) := by
  refine ⟨?_, ?_, ?_⟩
  · intro h
    simp [chat, chatWithData, h]
  · intro h
    have hne : ¬ (pyStrip d.message = "" ∧ d.regenerate = false) := by
      rintro ⟨h0, -⟩
      rw [h0] at h
      simp [String.length] at h
    simp only [chat, chatWithData]
    rw [if_neg hne, if_pos h]
  · intro hlen
    have hne : ¬ (pyStrip d.message = "" ∧ d.regenerate = false) := by
      rintro ⟨h0, -⟩
      rw [h0] at hlen
      simp [String.length] at hlen
    have hnl : ¬ 1200 < (pyStrip d.message).length := by omega
    simp only [chat, chatWithData]
    rw [if_neg hne, if_neg hnl]
    rcases hs : d.session_id with _ | sid
    · simp only [hs]
      exact afterResolve_resp_ne ..
    · simp only [hs]
      rcases hl : lookupA w.sessions sid with _ | s
      · simp [hl]
      · simp only [hl]
        by_cases hu : s.user_id = uid
        · rw [if_pos hu]
          exact afterResolve_resp_ne ..
        · rw [if_neg hu]
          simp

set_option maxRecDepth 8000 in
/-- Witness for C8: a blank non-regenerating request and an over-long
request are rejected without touching the store; a 1200-character message
passes the validation. -/
theorem C8_witness :
    chat w0 7 (some reqBlank) okOracle = ⟨ChatResp.emptyMessage, w0, none⟩
    ∧ chat w0 7 (some reqLong) okOracle = ⟨ChatResp.messageTooLong, w0, none⟩
    ∧ (chat w0 7 (some reqCap) okOracle).resp ≠ ChatResp.emptyMessage := by
  refine ⟨(C8_input_validation w0 7 reqBlank okOracle).1 ⟨by decide, rfl⟩,
    (C8_input_validation w0 7 reqLong okOracle).2.1 ?_,
    ((C8_input_validation w0 7 reqCap okOracle).2.2 ?_).1⟩
  · show 1200 < (pyStrip reqLong.message).length
    decide
  · show (pyStrip reqCap.message).length = 1200
    decide

/-- **C2.** For every non-regenerating turn (fresh or existing session),
the new user Message is persisted before the provider call: when the
provider call fails after retries are exhausted the session's history has
gained exactly the user message, and when it succeeds the history has
gained exactly the user message followed by the assistant message, in that
order with strictly increasing timestamps.  (`datetime.now()` is modelled
as a strictly increasing tick counter.) -/
theorem C2_user_message_durability (w : World) (uid : Nat) (d : ChatReq)
    (oracle : Nat → PAttempt) (sid : Nat) (msgs0 : List Message)
    (hreg : d.regenerate = false)
    (hne : pyStrip d.message ≠ "")
    (hlen : (pyStrip d.message).length ≤ 1200)
    (hres : ResolvesTo w uid d sid msgs0) :
    ∃ um : Message, um.role = "user" ∧ um.content = pyStrip d.message
      ∧ ((retryLoop oracle).failed = true →
          lookupA (chat w uid (some d) oracle).world.messages sid = some (msgs0 ++ [um]))
      ∧ ((retryLoop oracle).failed = false →
          ∃ am : Message, am.role = "assistant" ∧ um.created_at < am.created_at
            ∧ lookupA (chat w uid (some d) oracle).world.messages sid
                = some (msgs0 ++ [um, am])) := by
  have hval : ¬ (pyStrip d.message = "" ∧ d.regenerate = false) := fun hc => hne hc.1
  have hnl : ¬ 1200 < (pyStrip d.message).length := by omega
  rcases hres with ⟨hsid, rfl, rfl⟩ | ⟨s, hsid, hs, hu, hm⟩
  · rw [chat_fresh w uid d oracle hval hnl hsid, hreg, afterResolve_nonregen,
      runTurn_nonregen_eq _ uid _ _ oracle (freshSession w uid d) []
        (lookupA_setA_self ..) (lookupA_setA_self ..)]
    rcases hq : retryLoop oracle with ⟨r, att, sl⟩ | ⟨att, sl⟩ | ⟨att, sl⟩ <;>
      simp only [hq, LoopResult.failed] <;>
      refine ⟨⟨w.nextId + 1, "user", pyStrip d.message, w.clock + 3⟩, ?_, ?_, ?_, ?_⟩
    · rfl
    · rfl
    · intro hfail
      simp at hfail
    · intro _
      refine ⟨⟨w.nextId + 2, "assistant", pyStrip (r.content.getD "No response."),
        w.clock + 4⟩, ?_, ?_, ?_⟩
      · rfl
      · show w.clock + 3 < w.clock + 4
        omega
      · simp [lookupA_setA_self]
    · rfl
    · rfl
    · intro _
      simp [lookupA_setA_self]
    · intro hok
      simp at hok
    · rfl
    · rfl
    · intro _
      simp [lookupA_setA_self]
    · intro hok
      simp at hok
  · rw [chat_existing w uid d oracle sid s hval hnl hsid hs hu, hreg,
      afterResolve_nonregen, runTurn_nonregen_eq w uid sid _ oracle s msgs0 hs hm]
    rcases hq : retryLoop oracle with ⟨r, att, sl⟩ | ⟨att, sl⟩ | ⟨att, sl⟩ <;>
      simp only [hq, LoopResult.failed] <;>
      refine ⟨⟨w.nextId, "user", pyStrip d.message, w.clock + 1⟩, ?_, ?_, ?_, ?_⟩
    · rfl
    · rfl
    · intro hfail
      simp at hfail
    · intro _
      refine ⟨⟨w.nextId + 1, "assistant", pyStrip (r.content.getD "No response."),
        w.clock + 2⟩, ?_, ?_, ?_⟩
      · rfl
      · show w.clock + 1 < w.clock + 2
        omega
      · simp [lookupA_setA_self]
    · rfl
    · rfl
    · intro _
      simp [lookupA_setA_self]
    · intro hok
      simp at hok
    · rfl
    · rfl
    · intro _
      simp [lookupA_setA_self]
    · intro hok
      simp at hok

/-- Witness for C2: a successful non-regenerating turn against the concrete
store `w0` leaves exactly `user` then `assistant` appended, with strictly
increasing timestamps. -/
theorem C2_witness :
    ∃ um : Message, um.role = "user" ∧ um.content = pyStrip reqMsg.message
      ∧ ((retryLoop okOracle).failed = true →
          lookupA (chat w0 7 (some reqMsg) okOracle).world.messages 0
            = some ([m0u, m0a] ++ [um]))
      ∧ ((retryLoop okOracle).failed = false →
          ∃ am : Message, am.role = "assistant" ∧ um.created_at < am.created_at
            ∧ lookupA (chat w0 7 (some reqMsg) okOracle).world.messages 0
                = some ([m0u, m0a] ++ [um, am])) :=
  C2_user_message_durability w0 7 reqMsg okOracle 0 [m0u, m0a] rfl (by decide)
    (by decide) (Or.inr ⟨s0, rfl, by decide, by decide, by decide⟩)

/-- **C1 counterexample.** The claim asserts the assistant-message write and
the `updated_at` bump form one atomic unit, both happening only after a
successful provider response.  In the code the bump is executed at
`app.py` line 547, before the provider call: on the concrete store `w0`
(session 0 with `updated_at = 5`) a valid turn whose provider always
answers HTTP 500 ends as a 503 failure with `updated_at` changed to 100
while the store still holds no new assistant message — the bump happened
without the assistant-message write. -/
theorem C1_counterexample :
    (chat w0 7 (some reqMsg) badOracle).resp = ChatResp.unavailable
    ∧ (lookupA (chat w0 7 (some reqMsg) badOracle).world.sessions 0).map Session.updated_at
        = some 100
    ∧ (lookupA w0.sessions 0).map Session.updated_at = some 5
    ∧ (postMsgs (chat w0 7 (some reqMsg) badOracle) 0).countP (fun m => m.role == "assistant")
        = ((lookupA w0.messages 0).getD []).countP (fun m => m.role == "assistant") :=
  ⟨by decide, by decide, by decide, by decide⟩

/-- **C1 (amended).** The assistant-message write happens only after a
successful provider response, but the session's `updated_at` bump happens
before the provider call, on every turn that reaches it (`app.py` line
547): for any turn on an existing session that passes validation and the
regenerate guard, `updated_at` is set to the pre-call clock whether the
provider succeeds or fails; on failure no new assistant message exists in
the session history, so a failed turn does leave `updated_at` changed
without a new assistant message.  (Hypotheses `hwfs`/`hwfm` say the stored
timestamps lie in the past of the current clock.) -/
theorem C1_amended_timestamp_bump (w : World) (uid : Nat) (d : ChatReq)
    (oracle : Nat → PAttempt) (sid : Nat) (s : Session) (msgs0 : List Message)
    (hsid : d.session_id = some sid)
    (hs : lookupA w.sessions sid = some s)
    (hu : s.user_id = uid)
    (hm : lookupA w.messages sid = some msgs0)
    (hval : ¬ (pyStrip d.message = "" ∧ d.regenerate = false))
    (hlen : (pyStrip d.message).length ≤ 1200)
    (hwfs : s.updated_at < w.clock)
    (hwfm : ∀ m ∈ msgs0, m.created_at < w.clock)
    (hguard : d.regenerate = true →
      ∃ h a, msgs0 = h ++ [a] ∧ a.role = "assistant" ∧ h ≠ []) :
    (∃ s', lookupA (chat w uid (some d) oracle).world.sessions sid = some s'
        ∧ s'.updated_at = w.clock ∧ s.updated_at ≠ s'.updated_at)
    ∧ ((retryLoop oracle).failed = true →
        ∀ m ∈ postMsgs (chat w uid (some d) oracle) sid, m.role = "assistant" → m ∈ msgs0)
    ∧ ((retryLoop oracle).failed = false →
        ∃ am ∈ postMsgs (chat w uid (some d) oracle) sid,
          am.role = "assistant" ∧ am ∉ msgs0) := by
  have hnl : ¬ 1200 < (pyStrip d.message).length := by omega
  rw [chat_existing w uid d oracle sid s hval hnl hsid hs hu]
  rcases hr : d.regenerate with _ | _
  · rw [afterResolve_nonregen, runTurn_nonregen_eq w uid sid _ oracle s msgs0 hs hm]
    rcases hq : retryLoop oracle with ⟨r, att, sl⟩ | ⟨att, sl⟩ | ⟨att, sl⟩ <;>
      simp only [hq, LoopResult.failed] <;>
      refine ⟨⟨_, lookupA_setA_self .., rfl, Nat.ne_of_lt hwfs⟩, ?_, ?_⟩
    · intro hfail
      simp at hfail
    · intro _
      refine ⟨⟨w.nextId + 1, "assistant", pyStrip (r.content.getD "No response."),
        w.clock + 2⟩, ?_, rfl, ?_⟩
      · simp [postMsgs, lookupA_setA_self]
      · intro hmem
        have := hwfm _ hmem
        simp at this
    · intro _ m hmem hrole
      simp only [postMsgs, lookupA_setA_self, Option.getD_some] at hmem
      rcases List.mem_append.mp hmem with hm0 | hm1
      · exact hm0
      · simp at hm1
        rw [hm1] at hrole
        simp at hrole
    · intro hok
      simp at hok
    · intro _ m hmem hrole
      simp only [postMsgs, lookupA_setA_self, Option.getD_some] at hmem
      rcases List.mem_append.mp hmem with hm0 | hm1
      · exact hm0
      · simp at hm1
        rw [hm1] at hrole
        simp at hrole
    · intro hok
      simp at hok
  · obtain ⟨h, a, rfl, ha, hne2⟩ := hguard hr
    obtain ⟨lastm, hh⟩ := Option.isSome_iff_exists.mp (List.getLast?_isSome.mpr hne2)
    rw [afterResolve_regen_pop w uid sid _ oracle h a lastm hm ha hh,
      runTurn_regen_eq { w with messages := setA w.messages sid h } uid sid lastm.content
        oracle s h hs (lookupA_setA_self ..)]
    rcases hq : retryLoop oracle with ⟨r, att, sl⟩ | ⟨att, sl⟩ | ⟨att, sl⟩ <;>
      simp only [hq, LoopResult.failed] <;>
      refine ⟨⟨_, lookupA_setA_self .., rfl, Nat.ne_of_lt hwfs⟩, ?_, ?_⟩
    · intro hfail
      simp at hfail
    · intro _
      refine ⟨⟨w.nextId, "assistant", pyStrip (r.content.getD "No response."),
        w.clock + 1⟩, ?_, rfl, ?_⟩
      · simp [postMsgs, lookupA_setA_self, setA_setA]
      · intro hmem
        have := hwfm _ hmem
        simp at this
    · intro _ m hmem hrole
      simp only [postMsgs, lookupA_setA_self, Option.getD_some] at hmem
      exact List.mem_append_left _ hmem
    · intro hok
      simp at hok
    · intro _ m hmem hrole
      simp only [postMsgs, lookupA_setA_self, Option.getD_some] at hmem
      exact List.mem_append_left _ hmem
    · intro hok
      simp at hok

/-- Witness for C1 (amended): a successful concrete turn on `w0` bumps
`updated_at` from 5 to the pre-call clock 100 and appends a fresh assistant
message. -/
theorem C1_witness :
    (∃ s', lookupA (chat w0 7 (some reqMsg) okOracle).world.sessions 0 = some s'
        ∧ s'.updated_at = w0.clock ∧ s0.updated_at ≠ s'.updated_at)
    ∧ ((retryLoop okOracle).failed = true →
        ∀ m ∈ postMsgs (chat w0 7 (some reqMsg) okOracle) 0,
          m.role = "assistant" → m ∈ [m0u, m0a])
    ∧ ((retryLoop okOracle).failed = false →
        ∃ am ∈ postMsgs (chat w0 7 (some reqMsg) okOracle) 0,
          am.role = "assistant" ∧ am ∉ [m0u, m0a]) :=
  C1_amended_timestamp_bump w0 7 reqMsg okOracle 0 s0 [m0u, m0a] rfl (by decide) (by decide)
    (by decide) (by decide) (by decide) (by decide) (by decide)
    (fun hx => nomatch hx)

/-- **C5.** A successful regenerate turn removes the most recent assistant
message from the store, resubmits the last stored user message as the
effective user text (no new user message is persisted — the post-history is
exactly the remaining messages plus the one new assistant message), sends
the provider a context consisting of the system entry followed by the
remaining history with the previous assistant reply excluded (the last 20
of it; all of it whenever at most 20 messages remain, as in the spec's
example `[user:"hi", assistant:"hello"] ↦ [system, user:"hi"]`), and
appends the new assistant message. -/
theorem C5_regenerate_success (w : World) (uid : Nat) (d : ChatReq)
    (oracle : Nat → PAttempt) (sid : Nat) (s : Session)
    (h : List Message) (a lastm : Message) (r : ProviderResponse) (att sl : Nat)
    (hreg : d.regenerate = true)
    (hlen : (pyStrip d.message).length ≤ 1200)
    (hsid : d.session_id = some sid)
    (hs : lookupA w.sessions sid = some s)
    (hu : s.user_id = uid)
    (hm : lookupA w.messages sid = some (h ++ [a]))
    (ha : a.role = "assistant")
    (hh : h.getLast? = some lastm)
    (hq : retryLoop oracle = .success r att sl) :
    ∃ am : Message, am.role = "assistant"
      ∧ am.content = pyStrip (r.content.getD "No response.")
      ∧ lookupA (chat w uid (some d) oracle).world.messages sid = some (h ++ [am])
      ∧ (∃ p : Payload, (chat w uid (some d) oracle).sent = some p
        ∧ p.messages = RoleContent.mk "system"
              (generate_system_prompt (detect_language lastm.content) s.system_prompt)
            :: (lastN 20 h).map (fun m => RoleContent.mk m.role m.content)
        ∧ (h.length ≤ 20 →
            p.messages = RoleContent.mk "system"
                (generate_system_prompt (detect_language lastm.content) s.system_prompt)
              :: h.map (fun m => RoleContent.mk m.role m.content)))
      ∧ (chat w uid (some d) oracle).resp
          = ChatResp.ok (pyStrip (r.content.getD "No response.")) sid s.title s.model
              r.total_tokens := by
  have hval : ¬ (pyStrip d.message = "" ∧ d.regenerate = false) := by
    rintro ⟨-, h0⟩
    rw [hreg] at h0
    cases h0
  have hnl : ¬ 1200 < (pyStrip d.message).length := by omega
  rw [chat_existing w uid d oracle sid s hval hnl hsid hs hu, hreg,
    afterResolve_regen_pop w uid sid _ oracle h a lastm hm ha hh,
    runTurn_regen_eq { w with messages := setA w.messages sid h } uid sid lastm.content
      oracle s h hs (lookupA_setA_self ..)]
  simp only [hq]
  refine ⟨⟨w.nextId, "assistant", pyStrip (r.content.getD "No response."), w.clock + 1⟩,
    ?_, ?_, ?_, ?_, ?_⟩
  · rfl
  · rfl
  · simp [setA_setA, lookupA_setA_self]
  · refine ⟨_, rfl, rfl, ?_⟩
    intro hle
    rw [lastN_of_le hle]
  · trivial

/-- Witness for C5: regenerating on the concrete history
`[user:"hi", assistant:"hello"]` removes the assistant reply, sends the
context `[system, user:"hi"]`, and appends the new assistant message. -/
theorem C5_witness :
    ∃ am : Message, am.role = "assistant"
      ∧ am.content = pyStrip ((⟨some " Reply here ", 42⟩ : ProviderResponse).content.getD
          "No response.")
      ∧ lookupA (chat w0 7 (some reqRegen) okOracle).world.messages 0 = some ([m0u] ++ [am])
      ∧ (∃ p : Payload, (chat w0 7 (some reqRegen) okOracle).sent = some p
        ∧ p.messages = RoleContent.mk "system"
              (generate_system_prompt (detect_language m0u.content) s0.system_prompt)
            :: (lastN 20 [m0u]).map (fun m => RoleContent.mk m.role m.content)
        ∧ ([m0u].length ≤ 20 →
            p.messages = RoleContent.mk "system"
                (generate_system_prompt (detect_language m0u.content) s0.system_prompt)
              :: [m0u].map (fun m => RoleContent.mk m.role m.content)))
      ∧ (chat w0 7 (some reqRegen) okOracle).resp
          = ChatResp.ok (pyStrip ((⟨some " Reply here ", 42⟩ : ProviderResponse).content.getD
              "No response.")) 0 s0.title s0.model
              (⟨some " Reply here ", 42⟩ : ProviderResponse).total_tokens :=
  C5_regenerate_success w0 7 reqRegen okOracle 0 s0 [m0u] m0a m0u
    ⟨some " Reply here ", 42⟩ 1 0 rfl (by decide) rfl (by decide) (by decide) (by decide)
    (by decide) (by decide) (by decide)

/-- **C6.** For every non-regenerating turn, the conversation handed to the
provider has the system entry first, contains at most N+2 entries with
N = 20 the history bound of the code (`chat_messages[session_id][-20:]`),
keeps the included messages in chronological order (the included slice is a
suffix of the history, so truncation drops only the oldest messages), and
ends with the new user message. -/
theorem C6_context_assembly (w : World) (uid : Nat) (d : ChatReq)
    (oracle : Nat → PAttempt) (sid : Nat) (msgs0 : List Message)
    (hreg : d.regenerate = false)
    (hne : pyStrip d.message ≠ "")
    (hlen : (pyStrip d.message).length ≤ 1200)
    (hres : ResolvesTo w uid d sid msgs0) :
    ∃ p : Payload, ∃ sys : String, ∃ um : Message, (chat w uid (some d) oracle).sent = some p
      ∧ um.role = "user" ∧ um.content = pyStrip d.message
      ∧ p.messages = RoleContent.mk "system" sys ::
          (lastN 20 (msgs0 ++ [um])).map (fun m => RoleContent.mk m.role m.content)
      ∧ p.messages.length ≤ 22
      ∧ (∃ dropped, msgs0 ++ [um] = dropped ++ lastN 20 (msgs0 ++ [um]))
      ∧ p.messages.getLast? = some (RoleContent.mk "user" (pyStrip d.message)) := by
  have hval : ¬ (pyStrip d.message = "" ∧ d.regenerate = false) := fun hc => hne hc.1
  have hnl : ¬ 1200 < (pyStrip d.message).length := by omega
  rcases hres with ⟨hsid, rfl, rfl⟩ | ⟨s, hsid, hs, hu, hm⟩
  · rw [chat_fresh w uid d oracle hval hnl hsid, hreg, afterResolve_nonregen,
      runTurn_nonregen_eq _ uid _ _ oracle (freshSession w uid d) []
        (lookupA_setA_self ..) (lookupA_setA_self ..)]
    rcases hq : retryLoop oracle with ⟨r, att, sl⟩ | ⟨att, sl⟩ | ⟨att, sl⟩ <;>
      simp only [hq] <;>
      exact ⟨_, _, ⟨w.nextId + 1, "user", pyStrip d.message, w.clock + 3⟩,
        rfl, rfl, rfl, rfl, conv_length_le _ _, lastN_is_suffix 20 _, conv_getLast _ _ _⟩
  · rw [chat_existing w uid d oracle sid s hval hnl hsid hs hu, hreg,
      afterResolve_nonregen, runTurn_nonregen_eq w uid sid _ oracle s msgs0 hs hm]
    rcases hq : retryLoop oracle with ⟨r, att, sl⟩ | ⟨att, sl⟩ | ⟨att, sl⟩ <;>
      simp only [hq] <;>
      exact ⟨_, _, ⟨w.nextId, "user", pyStrip d.message, w.clock + 1⟩,
        rfl, rfl, rfl, rfl, conv_length_le _ _, lastN_is_suffix 20 _, conv_getLast _ _ _⟩

/-- Witness for C6: the context assembled for a concrete turn against `w0`
is system-first, bounded, chronological and ends with the new user entry. -/
theorem C6_witness :
    ∃ p : Payload, ∃ sys : String, ∃ um : Message, (chat w0 7 (some reqMsg) okOracle).sent = some p
      ∧ um.role = "user" ∧ um.content = pyStrip reqMsg.message
      ∧ p.messages = RoleContent.mk "system" sys ::
          (lastN 20 ([m0u, m0a] ++ [um])).map (fun m => RoleContent.mk m.role m.content)
      ∧ p.messages.length ≤ 22
      ∧ (∃ dropped, [m0u, m0a] ++ [um] = dropped ++ lastN 20 ([m0u, m0a] ++ [um]))
      ∧ p.messages.getLast? = some (RoleContent.mk "user" (pyStrip reqMsg.message)) :=
  C6_context_assembly w0 7 reqMsg okOracle 0 [m0u, m0a] rfl (by decide) (by decide)
    (Or.inr ⟨s0, rfl, by decide, by decide, by decide⟩)

/-- **C10.** The model used for the provider call is always the session's
stored model: for a turn on an existing session the request's model field is
ignored (the payload model is the stored one, whatever `d.model` is), and
when a turn creates a new session a requested model identifier that is not a
key of the available-model table is silently replaced by the default model
rather than rejected — the created (and persisted) session stores
`DEFAULT_MODEL`. -/
theorem C10_model_selection :
    (∀ (w : World) (uid : Nat) (d : ChatReq) (oracle : Nat → PAttempt)
        (sid : Nat) (s : Session) (msgs0 : List Message),
      d.regenerate = false → pyStrip d.message ≠ "" → (pyStrip d.message).length ≤ 1200 →
      d.session_id = some sid → lookupA w.sessions sid = some s → s.user_id = uid →
      lookupA w.messages sid = some msgs0 →
      ∃ p, (chat w uid (some d) oracle).sent = some p ∧ p.model = s.model)
    ∧ (∀ (w : World) (uid : Nat) (d : ChatReq) (oracle : Nat → PAttempt) (m : String),
      d.session_id = none → d.model = some m → lookupA AVAILABLE_MODELS m = none →
      ¬ (pyStrip d.message = "" ∧ d.regenerate = false) →
      (pyStrip d.message).length ≤ 1200 →
      ∃ s', lookupA (chat w uid (some d) oracle).world.sessions w.nextId = some s'
        ∧ s'.model = DEFAULT_MODEL) := by
  constructor
  · intro w uid d oracle sid s msgs0 hreg hne hlen hsid hs hu hm
    have hval : ¬ (pyStrip d.message = "" ∧ d.regenerate = false) := fun hc => hne hc.1
    have hnl : ¬ 1200 < (pyStrip d.message).length := by omega
    rw [chat_existing w uid d oracle sid s hval hnl hsid hs hu, hreg, afterResolve_nonregen,
      runTurn_nonregen_eq w uid sid _ oracle s msgs0 hs hm]
    rcases hq : retryLoop oracle with ⟨r, att, sl⟩ | ⟨att, sl⟩ | ⟨att, sl⟩ <;>
      simp only [hq] <;> exact ⟨_, rfl, rfl⟩
  · intro w uid d oracle m hsid hmod hlook hval hlen
    have hnl : ¬ 1200 < (pyStrip d.message).length := by omega
    have hfm : (freshSession w uid d).model = DEFAULT_MODEL := by
      simp [freshSession, resolveModel, hmod, hlook]
    rw [chat_fresh w uid d oracle hval hnl hsid]
    rcases hr : d.regenerate with _ | _
    · rw [afterResolve_nonregen,
        runTurn_nonregen_eq _ uid _ _ oracle (freshSession w uid d) []
          (lookupA_setA_self ..) (lookupA_setA_self ..)]
      rcases hq : retryLoop oracle with ⟨r, att, sl⟩ | ⟨att, sl⟩ | ⟨att, sl⟩ <;>
        simp only [hq] <;> exact ⟨_, lookupA_setA_self .., hfm⟩
    · simp only [afterResolve, lookupA_setA_self, Option.getD_some]
      simp only [List.length_nil, List.getLast?_nil, Option.map_none, if_true]
      rw [if_neg (by simp)]
      exact ⟨_, lookupA_setA_self .., hfm⟩

/-- Witness for C10: a turn on the stored session uses its stored model in
the payload, and a fresh-session turn requesting an unknown model stores the
default model. -/
theorem C10_witness :
    (∃ p, (chat w0 7 (some reqMsg) okOracle).sent = some p ∧ p.model = s0.model)
    ∧ (∃ s', lookupA (chat w0 7 (some reqBogusModel) badOracle).world.sessions w0.nextId
        = some s' ∧ s'.model = DEFAULT_MODEL) :=
  ⟨C10_model_selection.1 w0 7 reqMsg okOracle 0 s0 [m0u, m0a] rfl (by decide) (by decide)
      rfl (by decide) (by decide) (by decide),
   C10_model_selection.2 w0 7 reqBogusModel badOracle "bogus/model" rfl rfl (by decide)
      (by decide) (by decide)⟩

/-- **C4.** A regenerate request on a resolved (existing, caller-owned)
session whose last message is not an assistant message — including any
session with fewer than 2 messages — fails with `NothingToRegenerate` and
performs no mutation: the response is the 400 error, the stores are exactly
the pre-state, and no provider call is made. -/
theorem C4_regenerate_guard (w : World) (uid : Nat) (d : ChatReq) (oracle : Nat → PAttempt)
    (sid : Nat) (s : Session)
    (hreg : d.regenerate = true)
    (hsid : d.session_id = some sid)
    (hs : lookupA w.sessions sid = some s)
    (hu : s.user_id = uid)
    (hlen : (pyStrip d.message).length ≤ 1200)
    (hguard : ¬ (2 ≤ ((lookupA w.messages sid).getD []).length
        ∧ ((lookupA w.messages sid).getD []).getLast?.map (fun m => m.role) = some "assistant")) :
    chat w uid (some d) oracle = ⟨ChatResp.nothingToRegenerate, w, none⟩ := by
  have hne : ¬ (pyStrip d.message = "" ∧ d.regenerate = false) := by
    rintro ⟨-, h0⟩
    rw [hreg] at h0
    cases h0
  have hnl : ¬ 1200 < (pyStrip d.message).length := by omega
  simp only [chat, chatWithData]
  rw [if_neg hne, if_neg hnl]
  simp only [hsid, hs]
  rw [if_pos hu]
  simp only [afterResolve, hreg, if_true]
  rw [if_neg hguard]

/-- Witness for C4: regenerating on a session whose history was left ending
in a user message fails and leaves the store untouched. -/
theorem C4_witness :
    chat { w0 with messages := [(0, [m0u])] } 7 (some reqRegen) okOracle
      = ⟨ChatResp.nothingToRegenerate, { w0 with messages := [(0, [m0u])] }, none⟩ :=
  C4_regenerate_guard { w0 with messages := [(0, [m0u])] } 7 reqRegen okOracle 0 s0
    rfl rfl (by decide) (by decide) (by decide) (by decide)

/-- **C9.** A turn request with `regenerate` set and no `session_id` skips
the empty-message validation, creates and persists a new session (title
derived from the possibly-empty stripped message, empty message list)
before the regenerate check runs, and then fails with
`NothingToRegenerate`, leaving the newly created session in the store. -/
theorem C9_regenerate_without_session (w : World) (uid : Nat) (d : ChatReq)
    (oracle : Nat → PAttempt)
    (hreg : d.regenerate = true)
    (hsid : d.session_id = none)
    (hlen : (pyStrip d.message).length ≤ 1200) :
    (chat w uid (some d) oracle).resp = ChatResp.nothingToRegenerate
    ∧ (∃ s', lookupA (chat w uid (some d) oracle).world.sessions w.nextId = some s'
        ∧ s'.title = generate_chat_title (pyStrip d.message)
        ∧ s'.user_id = uid ∧ s'.message_count = 0)
    ∧ lookupA (chat w uid (some d) oracle).world.messages w.nextId = some []
    ∧ (chat w uid (some d) oracle).sent = none := by
  have hne : ¬ (pyStrip d.message = "" ∧ d.regenerate = false) := by
    rintro ⟨-, h0⟩
    rw [hreg] at h0
    cases h0
  have hnl : ¬ 1200 < (pyStrip d.message).length := by omega
  simp only [chat, chatWithData]
  rw [if_neg hne, if_neg hnl]
  simp only [hsid, hreg, afterResolve, if_true, lookupA_setA_self]
  simp [lookupA_setA_self, freshSession]

/-- Witness for C9: a session-less regenerate request with an empty message
creates session 10 (empty title, empty history) and fails with
`NothingToRegenerate`. -/
theorem C9_witness :
    (chat w0 7 (some reqRegenFresh) okOracle).resp = ChatResp.nothingToRegenerate
    ∧ (∃ s', lookupA (chat w0 7 (some reqRegenFresh) okOracle).world.sessions w0.nextId = some s'
        ∧ s'.title = generate_chat_title (pyStrip reqRegenFresh.message)
        ∧ s'.user_id = 7 ∧ s'.message_count = 0)
    ∧ lookupA (chat w0 7 (some reqRegenFresh) okOracle).world.messages w0.nextId = some []
    ∧ (chat w0 7 (some reqRegenFresh) okOracle).sent = none :=
  C9_regenerate_without_session w0 7 reqRegenFresh okOracle rfl rfl (by decide)
